import Mathlib

/-!
Verification development for the photoface repository.

The Python sources under `src/photoface/` are shallowly embedded: SQLite
tables become lists of records, every `DatabaseManager` method becomes a pure
function on a `DB` state, filesystem effects become an explicit `FS` state,
and code that can raise a Python exception is written in `Except`.  SQLite
`REAL` columns and embedding components are modelled as rationals; external
collaborators (the InsightFace detector, the image decoders, `os.stat`,
`shutil.copy2`) are oracle parameters describing one concrete environment.

Python rows fetched from SQLite are plain tuples and several call sites
unpack them positionally into a fixed number of variables; where that arity
is load-bearing, rows are modelled as `List PyVal` and unpacking as a
fallible `unpack` operation that mirrors Python's `ValueError`.
-/

namespace PhotoFace

/-- Embedding vector decoded from the `embedding` BLOB
(`np.frombuffer(..., dtype=np.float32)`); components modelled as rationals. -/
abbrev Emb := List ℚ

/-- Python exceptions that the embedded code can raise. -/
inductive PyErr where
  | valueError
  | attributeError
  | typeError
  | osError
  deriving DecidableEq, Repr

/-- Rendering used where the source interpolates the exception into an
f-string message. -/
def PyErr.msg : PyErr → String
  | .valueError => "ValueError"
  | .attributeError => "AttributeError"
  | .typeError => "TypeError"
  | .osError => "OSError"

/-- A SQLite value as seen from Python.  `int` covers INTEGER columns
(including the 0/1 booleans); `blob` is a decoded embedding BLOB; `null`
is SQL NULL / Python `None`. -/
inductive PyVal where
  | int (n : Nat)
  | str (s : String)
  | blob (e : Emb)
  | null
  deriving DecidableEq, Repr

/-- A fetched row: a Python tuple of column values. -/
abbrev Row := List PyVal

/-- Python tuple unpacking `a, b = row`: raises `ValueError` unless the tuple
has exactly two elements. -/
def unpack2 : Row → Except PyErr (PyVal × PyVal)
  | [a, b] => .ok (a, b)
  | _ => .error .valueError

/-- Python tuple unpacking `a, b, c = row`. -/
def unpack3 : Row → Except PyErr (PyVal × PyVal × PyVal)
  | [a, b, c] => .ok (a, b, c)
  | _ => .error .valueError

/-- Python tuple unpacking `a, b, c, d = row`. -/
def unpack4 : Row → Except PyErr (PyVal × PyVal × PyVal × PyVal)
  | [a, b, c, d] => .ok (a, b, c, d)
  | _ => .error .valueError

/- ## Data model (`DatabaseManager._init_db`, core/database.py) -/

/-- Row of `folders(id PK, path UNIQUE, added_date)`.  Timestamps carry no
claim-relevant information and are omitted. -/
structure FolderRow where
  id : Nat
  path : String
  deriving DecidableEq, Repr

/-- Row of `images(id PK, folder_id FK, file_path UNIQUE, file_name,
file_size, orig_width, orig_height, created_time, scan_status)`. -/
structure ImageRow where
  id : Nat
  folderId : Nat
  filePath : String
  fileName : String
  fileSize : Nat
  origW : Nat
  origH : Nat
  status : String
  deriving DecidableEq, Repr

/-- Row of `persons(id PK, name DEFAULT 'not recognized', is_confirmed
DEFAULT false, created_date)`. -/
structure PersonRow where
  id : Nat
  name : String
  isConfirmed : Bool
  deriving DecidableEq, Repr

/-- Row of `faces(id PK, image_id FK, person_id FK, embedding BLOB,
bbox_x1/y1/x2/y2 REAL, confidence REAL, is_person DEFAULT 0, created_date)`. -/
structure FaceRow where
  id : Nat
  imageId : Nat
  personId : Nat
  embedding : Option Emb
  x1 : ℚ
  y1 : ℚ
  x2 : ℚ
  y2 : ℚ
  conf : ℚ
  isPerson : Bool
  deriving DecidableEq, Repr

/-- Row of `albums(id PK, person_id FK UNIQUE, output_path)`. -/
structure AlbumRow where
  personId : Nat
  outputPath : String
  deriving DecidableEq, Repr

/-- The SQLite database state.  The `next…Id` fields are the AUTOINCREMENT
counters (SQLite hands out ids starting at 1). -/
structure DB where
  folders : List FolderRow
  images : List ImageRow
  persons : List PersonRow
  faces : List FaceRow
  albums : List AlbumRow
  settings : List (String × String)
  nextFolderId : Nat
  nextImageId : Nat
  nextPersonId : Nat
  nextFaceId : Nat
  deriving DecidableEq, Repr

/-- A freshly initialised database (`_init_db` creates empty tables). -/
def DB.empty : DB :=
  ⟨[], [], [], [], [], [], 1, 1, 1, 1⟩

/- ## Storage operations (core/database.py) -/

/-- `DatabaseManager.add_folder` (database.py:117).  `INSERT OR IGNORE INTO
folders (path) VALUES (?)`: on a duplicate path the insert is ignored and no
exception is raised (so the `IntegrityError` handler is dead code); each call
opens a fresh connection, so `cursor.lastrowid` after an ignored insert is 0,
a falsy value modelled as `none`.  On success it is the new row's id. -/
def add_folder (db : DB) (folder_path : String) : Option Nat × DB :=
  if db.folders.any (fun f => f.path == folder_path) then
    (none, db)
  else
    (some db.nextFolderId,
     { db with
        folders := db.folders ++ [⟨db.nextFolderId, folder_path⟩],
        nextFolderId := db.nextFolderId + 1 })

/-- `DatabaseManager.folder_exists` (database.py:186). -/
def folder_exists (db : DB) (folder_path : String) : Bool :=
  db.folders.any (fun f => f.path == folder_path)

/-- `DatabaseManager.add_image` (database.py:211).  First probes the pixel
size with `PIL.Image.open`; any failure is logged and `(0, 0)` is stored
(`pil_size = none` models the probe raising).  Then `INSERT OR IGNORE`: on a
duplicate `file_path` the insert is ignored without an exception and
`cursor.lastrowid` of the fresh connection is 0 (falsy, modelled `none`);
the `IntegrityError` branch that would look up the existing id is dead.
New rows get `scan_status = 'pending'` (column default). -/
def add_image (db : DB) (folder_id : Nat) (file_path file_name : String)
    (file_size : Nat) (pil_size : Option (Nat × Nat)) : Option Nat × DB :=
  let orig := pil_size.getD (0, 0)
  if db.images.any (fun i => i.filePath == file_path) then
    (none, db)
  else
    (some db.nextImageId,
     { db with
        images := db.images ++
          [⟨db.nextImageId, folder_id, file_path, file_name, file_size,
            orig.1, orig.2, "pending"⟩],
        nextImageId := db.nextImageId + 1 })

/-- `DatabaseManager.update_image_status` (database.py:258). -/
def update_image_status (db : DB) (image_id : Nat) (status : String) : DB :=
  { db with
      images := db.images.map (fun i =>
        if i.id == image_id then { i with status := status } else i) }

/-- `DatabaseManager.create_person` (database.py:268): plain INSERT, always
returns the fresh id. -/
def create_person (db : DB) (name : String) : Nat × DB :=
  (db.nextPersonId,
   { db with
      persons := db.persons ++ [⟨db.nextPersonId, name, false⟩],
      nextPersonId := db.nextPersonId + 1 })

/-- `DatabaseManager.add_face` (database.py:291): validates that the bbox is
a 4-tuple (always true here, where the bbox is passed componentwise), inserts
with `is_person = 0` and returns the fresh id. -/
def add_face (db : DB) (image_id person_id : Nat) (embedding : Option Emb)
    (x1 y1 x2 y2 conf : ℚ) : Option Nat × DB :=
  (some db.nextFaceId,
   { db with
      faces := db.faces ++
        [⟨db.nextFaceId, image_id, person_id, embedding, x1, y1, x2, y2,
          conf, false⟩],
      nextFaceId := db.nextFaceId + 1 })

/-- `DatabaseManager.get_person_by_name` (database.py:322): id of the first
row matching the name, else `None`. -/
def get_person_by_name (db : DB) (name : String) : Option Nat :=
  (db.persons.find? (fun p => p.name == name)).map (fun p => p.id)

/-- `DatabaseManager.image_already_processed` (database.py:330): true iff a
row with this path has `scan_status = 'completed'`. -/
def image_already_processed (db : DB) (file_path : String) : Bool :=
  db.images.any (fun i => i.filePath == file_path && i.status == "completed")

/-- `DatabaseManager.get_setting` (database.py:712). -/
def get_setting (db : DB) (key dflt : String) : String :=
  ((db.settings.find? (fun kv => kv.1 == key)).map (fun kv => kv.2)).getD dflt

/-- `DatabaseManager.set_setting` (database.py:720): `INSERT OR REPLACE`. -/
def set_setting (db : DB) (key value : String) : DB :=
  if db.settings.any (fun kv => kv.1 == key) then
    { db with
        settings := db.settings.map (fun kv =>
          if kv.1 == key then (key, value) else kv) }
  else
    { db with settings := db.settings ++ [(key, value)] }

/-- `DatabaseManager.move_face_to_person` (database.py:466). -/
def move_face_to_person (db : DB) (face_id new_person_id : Nat) : DB :=
  { db with
      faces := db.faces.map (fun f =>
        if f.id == face_id then { f with personId := new_person_id } else f) }

/-- `DatabaseManager.set_face_person_status` (database.py:476). -/
def set_face_person_status (db : DB) (face_id : Nat) (is_person : Bool) : DB :=
  { db with
      faces := db.faces.map (fun f =>
        if f.id == face_id then { f with isPerson := is_person } else f) }

/-- `DatabaseManager.confirm_person` (database.py:441). -/
def confirm_person (db : DB) (person_id : Nat) : DB :=
  { db with
      persons := db.persons.map (fun p =>
        if p.id == person_id then { p with isConfirmed := true } else p) }

/-- `DatabaseManager.update_person_name` (database.py:431). -/
def update_person_name (db : DB) (person_id : Nat) (new_name : String) : DB :=
  { db with
      persons := db.persons.map (fun p =>
        if p.id == person_id then { p with name := new_name } else p) }

/-- `DatabaseManager.merge_persons` (database.py:451): move every face of the
source person to the target, then delete the source person row. -/
def merge_persons (db : DB) (source_person_id target_person_id : Nat) : DB :=
  { db with
      faces := db.faces.map (fun f =>
        if f.personId == source_person_id then
          { f with personId := target_person_id } else f),
      persons := db.persons.filter (fun p => !(p.id == source_person_id)) }

/-- `DatabaseManager.get_face_embedding` (database.py:409): the embedding
column of the face row, which may itself be NULL. -/
def get_face_embedding (db : DB) (face_id : Nat) : Option Emb :=
  (db.faces.find? (fun f => f.id == face_id)).bind (fun f => f.embedding)

/-- `DatabaseManager.get_all_face_embeddings` (database.py:419):
`SELECT f.id, f.embedding, p.name, f.is_person FROM faces f JOIN persons p ON
f.person_id = p.id WHERE p.name = 'not recognized'` — note the FOUR selected
columns. -/
def get_all_face_embeddings (db : DB) : List Row :=
  db.faces.flatMap (fun f =>
    (db.persons.filter (fun p => f.personId == p.id && p.name == "not recognized")).map
      (fun p =>
        [PyVal.int f.id,
         match f.embedding with | some e => PyVal.blob e | none => PyVal.null,
         PyVal.str p.name,
         PyVal.int (if f.isPerson then 1 else 0)]))

/- ## Clustering engine (core/face_clusterer.py) -/

/-- The attribute access `self.db_manager.get_total_faces_count()`
(face_clusterer.py:28).  The `db_manager` held by `FaceClusterer` is the
`DatabaseManager` of core/database.py (see `FacesTab.__init__`,
ui/faces_tab.py:413), and that class defines no attribute of this name — the
only implementation of the `SELECT COUNT(*) FROM faces` query is the method
`FacesTab.get_total_faces_count` (ui/faces_tab.py:1149) on the UI widget,
a different object.  The lookup therefore raises `AttributeError`.  (Even
`FaceClusterer.test_cluster_naming`, which monkey-patches the attribute,
first reads it and would raise the same error.) -/
def db_manager_get_total_faces_count (_db : DB) : Except PyErr Nat :=
  .error .attributeError

/-- The digit-width computation of `FaceClusterer._get_next_cluster_id`
(face_clusterer.py:43-52): width derived from the total face count. -/
def cluster_digits (total_faces : Nat) : Nat :=
  if total_faces < 10 then 1
  else if total_faces < 100 then 2
  else if total_faces < 1000 then 3
  else if total_faces < 10000 then 4
  else 5

/-- Python `str.zfill`: left-pad with zeros to the given width (never
truncates). -/
def zfill (s : String) (width : Nat) : String :=
  String.mk (List.replicate (width - s.length) '0') ++ s

/-- `FaceClusterer._get_next_cluster_id` (face_clusterer.py:24-60): read the
total face count (raises, see `db_manager_get_total_faces_count`), read the
`last_cluster_id` setting with `int(...)` falling back to 0 on `ValueError`,
increment, zero-pad to the width derived from the face count, persist the
new counter, return the formatted id. -/
def get_next_cluster_id (db : DB) : Except PyErr (String × DB) := do
  let total_faces ← db_manager_get_total_faces_count db
  let last := get_setting db "last_cluster_id" "0"
  let lastN : Int := (last.toInt?).getD 0
  let next : Int := lastN + 1
  let digits := cluster_digits total_faces
  let formatted := zfill (toString next) digits
  let db2 := set_setting db "last_cluster_id" (toString next)
  return (formatted, db2)

/-- The inner loop of `FaceClusterer.apply_clusters_to_database`
(face_clusterer.py:157-161): move each face of the cluster to the new person
and set `is_person = 0`. -/
def move_cluster_faces (db : DB) (person_id : Nat) : List Nat → DB
  | [] => db
  | face_id :: rest =>
      move_cluster_faces
        (set_face_person_status (move_face_to_person db face_id person_id)
          face_id false)
        person_id rest

/-- The `for cluster_id, face_ids in cluster_groups.items()` loop of
`FaceClusterer.apply_clusters_to_database` (face_clusterer.py:147-162),
threading the database and the `created_persons` counter; a raised exception
carries the database state already committed. -/
def apply_clusters_loop : DB → List (Nat × List Nat) → Nat →
    Except (PyErr × DB) (Nat × DB)
  | db, [], created => .ok (created, db)
  | db, (_, face_ids) :: rest, created =>
      if face_ids.length < 1 then apply_clusters_loop db rest created
      else
        match get_next_cluster_id db with
        | .error e => .error (e, db)
        | .ok (formatted, db1) =>
            let person_name := "Person_" ++ formatted
            let (person_id, db2) := create_person db1 person_name
            -- `create_person` always returns a fresh positive id, so the
            -- `if person_id:` guard is taken
            let db3 := move_cluster_faces db2 person_id face_ids
            apply_clusters_loop db3 rest (created + 1)

/-- `FaceClusterer.apply_clusters_to_database` (face_clusterer.py:139-169):
the whole body is wrapped in `try/except` returning 0 on any exception; the
database keeps whatever was committed before the exception. -/
def apply_clusters_to_database (db : DB) (cluster_groups : List (Nat × List Nat)) :
    Nat × DB :=
  match apply_clusters_loop db cluster_groups 0 with
  | .ok (created, db1) => (created, db1)
  | .error (_, db1) => (0, db1)

/-- Result dictionary appended by `FaceClusterer.find_similar_faces`
(face_clusterer.py:202-206). -/
structure SimilarFace where
  face_id : Nat
  similarity : ℚ
  person_name : String
  deriving DecidableEq, Repr

/-- Stable insertion into a list sorted by descending similarity; `sortDesc`
models `similar_faces.sort(key=..., reverse=True)`. -/
def insertDesc (x : SimilarFace) : List SimilarFace → List SimilarFace
  | [] => [x]
  | y :: ys => if y.similarity < x.similarity then x :: y :: ys
               else y :: insertDesc x ys

/-- Python's stable sort by `similarity`, descending. -/
def sortDesc : List SimilarFace → List SimilarFace
  | [] => []
  | x :: xs => insertDesc x (sortDesc xs)

/-- Python truthiness of a fetched column value: `None`, empty bytes, 0 and
the empty string are falsy. -/
def PyVal.falsy : PyVal → Bool
  | .null => true
  | .blob e => e.isEmpty
  | .int n => n == 0
  | .str s => s == ""

/-- The `for other_face_id, other_embedding_bytes, person_name in face_data`
loop of `FaceClusterer.find_similar_faces` (face_clusterer.py:191-206).  The
rows of `get_all_face_embeddings` have FOUR columns (`id, embedding, name,
is_person`), so the three-variable unpacking raises `ValueError` on the
first row.  The loop body is nevertheless translated in full; the cosine
similarity of two float32 vectors (normalised dot product) is an oracle
parameter `sim`. -/
def similar_faces_loop (sim : Emb → Emb → ℚ) (target : Emb) (face_id : Nat)
    (threshold : ℚ) :
    List Row → List SimilarFace → Except PyErr (List SimilarFace)
  | [], acc => .ok acc
  | row :: rest, acc => do
      let (v1, v2, v3) ← unpack3 row
      match v1, v3 with
      | .int other_face_id, .str person_name =>
          -- `if other_face_id == face_id or not other_embedding_bytes: continue`
          if other_face_id == face_id || v2.falsy then
            similar_faces_loop sim target face_id threshold rest acc
          else
            match v2 with
            | .blob other_emb =>
                let similarity := sim target other_emb
                if threshold ≤ similarity then
                  similar_faces_loop sim target face_id threshold rest
                    (acc ++ [⟨other_face_id, similarity, person_name⟩])
                else similar_faces_loop sim target face_id threshold rest acc
            | _ => .error .typeError
      | _, _ => .error .typeError

/-- `FaceClusterer.find_similar_faces` (face_clusterer.py:171-214).  The
body is wrapped in `try/except` returning `[]` on any exception; the
target's own normalisation before the loop is a pure numeric computation and
cannot raise. -/
def find_similar_faces (sim : Emb → Emb → ℚ) (db : DB) (face_id : Nat)
    (threshold : ℚ) : List SimilarFace :=
  match get_face_embedding db face_id with
  | none => []
  | some target =>
      match similar_faces_loop sim target face_id threshold
          (get_all_face_embeddings db) [] with
      | .ok l => sortDesc l
      | .error _ => []

/- ## Album queries (core/database.py) -/

/-- The SQL join `faces f JOIN images i ON f.image_id = i.id`. -/
def faces_join_images (db : DB) : List (FaceRow × ImageRow) :=
  db.faces.flatMap (fun f =>
    (db.images.filter (fun i => f.imageId == i.id)).map (fun i => (f, i)))

/-- The correlated subquery `SELECT COUNT(*) FROM faces f2 WHERE
f2.image_id = i.id` used by `get_single_photos` / `get_photos_with_multiple_faces`. -/
def count_faces_on_image (db : DB) (image_id : Nat) : Nat :=
  (db.faces.filter (fun f => f.imageId == image_id)).length

/-- The subquery of `get_person_photos` counting faces through a join on
`file_path` (equivalent to `count_faces_on_image` when paths are unique). -/
def count_faces_on_path (db : DB) (file_path : String) : Nat :=
  ((faces_join_images db).filter (fun fi => fi.2.filePath == file_path)).length

/-- `DatabaseManager.get_person_photos` (database.py:582): DISTINCT rows
`(file_path, file_name, total_faces, confidence)` of the person's faces
joined with their images.  The trailing ORDER BY affects presentation order
only and is not modelled. -/
def get_person_photos (db : DB) (person_id : Nat) : List (String × String × Nat × ℚ) :=
  (((faces_join_images db).filter (fun fi => fi.1.personId == person_id)).map
    (fun fi =>
      (fi.2.filePath, fi.2.fileName, count_faces_on_path db fi.2.filePath,
       fi.1.conf))).dedup

/-- `DatabaseManager.get_single_photos` (database.py:622): DISTINCT
`(file_path, file_name, confidence)` where the person owns a face on the
image and the image carries exactly one face in total. -/
def get_single_photos (db : DB) (person_id : Nat) : List (String × String × ℚ) :=
  (((faces_join_images db).filter (fun fi =>
      fi.1.personId == person_id && count_faces_on_image db fi.2.id == 1)).map
    (fun fi => (fi.2.filePath, fi.2.fileName, fi.1.conf))).dedup

/-- The `GROUP_CONCAT` of confirmed person names with a face on the image
(third column of `get_photos_with_multiple_faces`); SQL NULL for an empty
group renders as the empty string here, which no claim observes. -/
def other_persons_concat (db : DB) (image_id : Nat) : String :=
  String.intercalate ", "
    ((db.faces.filter (fun f => f.imageId == image_id)).flatMap (fun f =>
      (db.persons.filter (fun p => f.personId == p.id && p.isConfirmed)).map
        (fun p => p.name)))

/-- `DatabaseManager.get_photos_with_multiple_faces` (database.py:602):
DISTINCT `(file_path, file_name, other_persons)` where the person owns a
face on the image and the image carries more than one face in total. -/
def get_photos_with_multiple_faces (db : DB) (person_id : Nat) :
    List (String × String × String) :=
  (((faces_join_images db).filter (fun fi =>
      fi.1.personId == person_id &&
        decide (1 < count_faces_on_image db fi.2.id))).map
    (fun fi =>
      (fi.2.filePath, fi.2.fileName, other_persons_concat db fi.2.id))).dedup

/-- `DatabaseManager.get_persons_with_albums` (database.py:569): rows
`(id, name, is_confirmed, output_path)` of confirmed persons joined with
their albums.  The ORDER BY on the name affects processing order between
persons, which no claim depends on; join order is kept. -/
def get_persons_with_albums (db : DB) : List Row :=
  db.persons.flatMap (fun p =>
    if p.isConfirmed then
      (db.albums.filter (fun a => a.personId == p.id)).map (fun a =>
        [PyVal.int p.id, PyVal.str p.name, PyVal.int 1,
         PyVal.str a.outputPath])
    else [])

/- ## Export engine (core/export_manager.py) -/

/-- The filesystem: the set of existing paths (directories and files).
File contents are not observed by any claim. -/
structure FS where
  paths : List String
  deriving DecidableEq, Repr

/-- `os.path.join` for the directory/filename combinations used here. -/
def os_path_join (a b : String) : String := a ++ "/" ++ b

/-- `os.makedirs(..., exist_ok=True)`. -/
def makedirs (fs : FS) (dir : String) : FS :=
  if fs.paths.contains dir then fs else ⟨fs.paths ++ [dir]⟩

/-- Python `os.path.splitext`: split off the extension at the last dot of
the basename unless only leading dots precede it. -/
def splitext (s : String) : String × String :=
  let cs := s.toList
  let rev := cs.reverse
  let extRev := rev.takeWhile (fun c => c ≠ '.' && c ≠ '/')
  let rest := rev.drop extRev.length
  match rest with
  | '.' :: beforeRev =>
      let baseRev := beforeRev.takeWhile (fun c => c ≠ '/')
      if baseRev.all (fun c => c = '.') then (s, "")
      else
        (String.mk (beforeRev.reverse), String.mk ('.' :: extRev.reverse))
  | _ => (s, "")

/-- The collision `while` loop of `ExportTask._copy_photo`
(export_manager.py:148-153): try `filename`, then `base_1ext`, `base_2ext`, …
until a non-existing target is found.  The fuel `paths.length + 1` always
suffices because successive candidates are pairwise distinct strings, so the
fuel-exhausted fallback (returning the current candidate unchecked) is
unreachable. -/
def free_target (paths : List String) (dir base ext : String) :
    Nat → Nat → String → String
  | 0, _, target => target
  | fuel + 1, counter, target =>
      if paths.contains target then
        free_target paths dir base ext fuel (counter + 1)
          (os_path_join dir (base ++ "_" ++ toString counter ++ ext))
      else target

/-- `ExportTask._copy_photo` (export_manager.py:142-159): resolve collisions
with the numeric-suffix loop, then `shutil.copy2`; on failure the exception
is logged and RE-RAISED (`raise`), leaving the filesystem unchanged.  The
oracle `copyOk` decides whether copying `source` to `target` succeeds. -/
def copy_photo (copyOk : String → String → Bool) (fs : FS)
    (source_path target_dir filename : String) : Except String FS :=
  let se := splitext filename
  let target := free_target fs.paths target_dir se.1 se.2
    (fs.paths.length + 1) 1 (os_path_join target_dir filename)
  if copyOk source_path target then .ok ⟨fs.paths ++ [target]⟩
  else .error ("copy error: " ++ source_path)

/-- One of the two copy loops of `ExportTask._export_person_album`
(export_manager.py:103-126): copy each `(file_path, file_name)` into `dir`;
a raised copy error aborts the loop carrying the filesystem as committed so
far.  Cancellation and progress signals are omitted (no run in the claims is
cancelled). -/
def copy_list (copyOk : String → String → Bool) (fs : FS) (dir : String) :
    List (String × String) → Except (String × FS) FS
  | [] => .ok fs
  | (src, fname) :: rest =>
      match copy_photo copyOk fs src dir fname with
      | .ok fs2 => copy_list copyOk fs2 dir rest
      | .error e => .error (e, fs)

/-- `ExportTask._create_info_file` (export_manager.py:161-177): writes
`info.txt` into the album directory; its `try/except` swallows any error. -/
def create_info_file (fs : FS) (album_path : String) : FS :=
  if fs.paths.contains (os_path_join album_path "info.txt") then fs
  else ⟨fs.paths ++ [os_path_join album_path "info.txt"]⟩

/-- `ExportTask._export_person_album` (export_manager.py:86-140): create the
album directory and its `with_friends` subdirectory, copy the solo photos
into the former and the group photos into the latter, write the info file;
any exception is caught and turned into `(False, message)`, with the
filesystem keeping everything already copied. -/
def export_person_album (db : DB) (copyOk : String → String → Bool) (fs : FS)
    (person_id : Nat) (person_name output_path : String) :
    (Bool × String) × FS :=
  let album_path := os_path_join output_path person_name
  let fs1 := makedirs fs album_path
  let friends_path := os_path_join album_path "with_friends"
  let fs2 := makedirs fs1 friends_path
  let single_photos := get_single_photos db person_id
  let group_photos := get_photos_with_multiple_faces db person_id
  match copy_list copyOk fs2 album_path
      (single_photos.map (fun r => (r.1, r.2.1))) with
  | .error (e, fs3) =>
      ((false, "Export error for " ++ person_name ++ ": " ++ e), fs3)
  | .ok fs3 =>
      match copy_list copyOk fs3 friends_path
          (group_photos.map (fun r => (r.1, r.2.1))) with
      | .error (e, fs4) =>
          ((false, "Export error for " ++ person_name ++ ": " ++ e), fs4)
      | .ok fs4 => ((true, "Success"), create_info_file fs4 album_path)

/-- Why an export loop stops early: a Python exception propagating to the
outer `try` of `_export_albums`, or the `return False, message` taken when
one person's album export fails. -/
inductive ExportStop where
  | exc (e : PyErr)
  | fail (msg : String)
  deriving DecidableEq, Repr

/-- The counting loop of `ExportTask._export_albums`
(export_manager.py:57-59): `for person_id, person_name, _, output_path in
persons: total += len(get_person_photos(person_id))` — note the FOUR-variable
unpacking. -/
def count_photos_loop (db : DB) : List Row → Nat → Except PyErr Nat
  | [], total => .ok total
  | row :: rest, total => do
      let (v1, _, _, _) ← unpack4 row
      match v1 with
      | .int pid =>
          count_photos_loop db rest (total + (get_person_photos db pid).length)
      | _ => .error .typeError

/-- The export loop of `ExportTask._export_albums` (export_manager.py:62-78):
four-variable unpacking again, then `_export_person_album`; a failed album
export returns `False, message` for the whole run, a successful one adds the
person's photo count to `processed_photos`. -/
def export_persons_loop (db : DB) (copyOk : String → String → Bool) :
    FS → List Row → Nat → Except (ExportStop × FS) (Nat × FS)
  | fs, [], processed => .ok (processed, fs)
  | fs, row :: rest, processed =>
      match unpack4 row with
      | .error e => .error (.exc e, fs)
      | .ok (v1, v2, _, v4) =>
          match v1, v2, v4 with
          | .int pid, .str pname, .str outp =>
              match export_person_album db copyOk fs pid pname outp with
              | ((false, msg), fs2) => .error (.fail msg, fs2)
              | ((true, _), fs2) =>
                  export_persons_loop db copyOk fs2 rest
                    (processed + (get_person_photos db pid).length)
          | _, _, _ => .error (.exc .typeError, fs)

/-- `ExportTask._export_albums` (export_manager.py:40-84).  With a target
`person_id` the persons list is the literal `[(person_id, "Selected
Person")]` — a TWO-tuple, although both loops unpack four variables;
without one it is `get_persons_with_albums()`.  Any exception inside the
body is caught and rendered as `False, "Export error: …"`. -/
def export_albums (db : DB) (copyOk : String → String → Bool) (fs : FS)
    (person_id : Option Nat) : (Bool × String) × FS :=
  let persons : List Row :=
    match person_id with
    | some pid => [[PyVal.int pid, PyVal.str "Selected Person"]]
    | none => get_persons_with_albums db
  if persons.isEmpty then ((false, "No persons with configured albums"), fs)
  else
    match count_photos_loop db persons 0 with
    | .error e => ((false, "Export error: " ++ e.msg), fs)
    | .ok _total =>
        match export_persons_loop db copyOk fs persons 0 with
        | .error (.exc e, fs2) => ((false, "Export error: " ++ e.msg), fs2)
        | .error (.fail msg, fs2) => ((false, msg), fs2)
        | .ok (processed, fs2) =>
            ((true, "Export finished. Processed " ++ toString processed ++
              " photos"), fs2)

/- ## Detection and scan pipeline (core/face_analyzer.py, core/scan_manager.py) -/

/-- One raw detection as returned by the InsightFace model: an unclamped
float bbox, a confidence score and an embedding. -/
structure RawDet where
  x1 : ℚ
  y1 : ℚ
  x2 : ℚ
  y2 : ℚ
  conf : ℚ
  emb : Emb
  deriving DecidableEq, Repr

/-- The per-file behaviour of the external collaborators during one scan:
whether `os.stat` succeeds, the PIL size probe of `add_image`, the pixel
dimensions of the file, whether `detect_faces` manages to decode it, the
detector's raw output, and whether the storage-level status UPDATE after
registration succeeds.  (The PIL probe and the cv2 decode are assumed to
agree on the dimensions of a readable file.) -/
structure FileEnv where
  statOk : Bool
  fileSize : Nat
  pilOk : Bool
  dims : Nat × Nat
  decodeOk : Bool
  dets : List RawDet
  updOk : Bool
  deriving DecidableEq, Repr

/-- A stored detection dictionary built by `FaceAnalyzer.detect_faces`
(face_analyzer.py:115-120). -/
structure DetOut where
  x1 : ℚ
  y1 : ℚ
  x2 : ℚ
  y2 : ℚ
  emb : Emb
  conf : ℚ
  deriving DecidableEq, Repr

/-- `FaceAnalyzer.detect_faces` (face_analyzer.py:43-129): if neither cv2
nor PIL can load the file, return `[]`; otherwise clamp every raw bbox to
`[0,width] × [0,height]` and DISCARD detections that degenerate
(`x1 >= x2 or y1 >= y2`).  The method catches all its own exceptions and
returns `[]`, so it never raises. -/
def detect_faces (env : FileEnv) : List DetOut :=
  if env.decodeOk then
    env.dets.filterMap (fun d =>
      let x1 := max 0 d.x1
      let y1 := max 0 d.y1
      let x2 := min (env.dims.1 : ℚ) d.x2
      let y2 := min (env.dims.2 : ℚ) d.y2
      if x2 ≤ x1 ∨ y2 ≤ y1 then none
      else some ⟨x1, y1, x2, y2, d.emb, d.conf⟩)
  else []

/-- Python `os.path.basename` for slash-separated paths. -/
def basename (p : String) : String :=
  ((p.splitOn "/").getLast?).getD p

/-- The face-storing loop of `ScanTask._scan_folders`
(scan_manager.py:177-193): one `add_face` per detection, owner
`not recognized`. -/
def store_faces (db : DB) (image_id person_id : Nat) : List DetOut → DB
  | [] => db
  | d :: rest =>
      store_faces
        (add_face db image_id person_id (some d.emb) d.x1 d.y1 d.x2 d.y2
          d.conf).2
        image_id person_id rest

/-- The per-file body of `ScanTask._scan_folders` (scan_manager.py:129-205):
skip files already completed; otherwise `os.stat` (its failure raises before
registration, when `image_id` is still `None`, so the `except` marks
nothing), `add_image` (a falsy id means `continue`), status → `processing`
(a storage failure here raises after registration, so the `except` marks the
image `error`), detection, face storage, status → `completed`.  Progress
signals and the cooperative cancellation check are omitted: no run in the
claims is cancelled. -/
def process_file (db : DB) (folder_db_id not_recognized_id : Nat)
    (path : String) (env : FileEnv) : DB :=
  if image_already_processed db path then db
  else if !env.statOk then db
  else
    let pil := if env.pilOk then some env.dims else none
    let r := add_image db folder_db_id path (basename path) env.fileSize pil
    match r.1 with
    | none => r.2
    | some image_id =>
        if !env.updOk then update_image_status r.2 image_id "error"
        else
          let db2 := update_image_status r.2 image_id "processing"
          let db3 := store_faces db2 image_id not_recognized_id
            (detect_faces env)
          update_image_status db3 image_id "completed"

/-- The file loop of one scan run. -/
def scan_files (db : DB) (folder_db_id not_recognized_id : Nat) :
    List (String × FileEnv) → DB
  | [] => db
  | (p, env) :: rest =>
      scan_files (process_file db folder_db_id not_recognized_id p env)
        folder_db_id not_recognized_id rest

/-- `ScanTask._scan_folders` (scan_manager.py:40-211) restricted to one
folder's file list: ensure the `not recognized` person exists
(scan_manager.py:69-73), then process every file. -/
def scan_run (db : DB) (folder_db_id : Nat) (files : List (String × FileEnv)) :
    DB :=
  match get_person_by_name db "not recognized" with
  | some pid => scan_files db folder_db_id pid files
  | none =>
      let r := create_person db "not recognized"
      scan_files r.2 folder_db_id r.1 files

/-- Status of the image row registered for a path. -/
def scan_status_of (db : DB) (path : String) : Option String :=
  (db.images.find? (fun i => i.filePath == path)).map (fun i => i.status)

/-- The terminal status the per-file state machine actually assigns to a
previously unseen file, as a function of where (if anywhere) its processing
raises: a pre-registration failure leaves no row at all, a post-registration
failure marks `error`, otherwise the file completes. -/
def expected_file_status (env : FileEnv) : Option String :=
  if !env.statOk then none
  else if !env.updOk then some "error"
  else some "completed"

/-- The coordinate property each face stored by a scan run satisfies,
relative to the run's per-file environments: its owning image row exists,
the bbox is non-degenerate and clamped to the decoded pixel dimensions of
that image's file, and whenever the registration-time size probe succeeded
those dimensions are exactly the stored `orig_width`/`orig_height`, so the
bbox also fits the stored original pixel space. -/
def face_in_bounds (files : List (String × FileEnv)) (db : DB) (f : FaceRow) :
    Prop :=
  ∃ img, img ∈ db.images ∧ img.id = f.imageId ∧
    ∃ env, (img.filePath, env) ∈ files ∧
      0 ≤ f.x1 ∧ f.x1 < f.x2 ∧ f.x2 ≤ (env.dims.1 : ℚ) ∧
      0 ≤ f.y1 ∧ f.y1 < f.y2 ∧ f.y2 ≤ (env.dims.2 : ℚ) ∧
      (env.pilOk = true →
        img.origW = env.dims.1 ∧ img.origH = env.dims.2 ∧
        f.x2 ≤ (img.origW : ℚ) ∧ f.y2 ≤ (img.origH : ℚ))

/- ## Person renaming (ui/faces_tab.py) -/

/-- `FacesTab.rename_person` (ui/faces_tab.py:910-959) after the dialog is
accepted: an empty or unchanged name is a no-op; a name already carried by a
DIFFERENT person triggers `merge_persons`; otherwise the person is renamed
with `update_person_name` and confirmed with `confirm_person` — nothing in
this branch touches the faces table. -/
def rename_person (db : DB) (person_id : Nat) (current_name new_name : String) :
    DB :=
  if new_name = "" ∨ new_name = current_name then db
  else
    match get_person_by_name db new_name with
    | some target_id =>
        if target_id ≠ person_id then merge_persons db person_id target_id
        else confirm_person (update_person_name db person_id new_name) person_id
    | none =>
        confirm_person (update_person_name db person_id new_name) person_id

/- ## Scan coordination (core/scan_manager.py) -/

/-- The claim-relevant state of a `ScanTask`: its cooperative-cancellation
flag.  `ScanTask.run` (scan_manager.py:29-35) never modifies `is_cancelled`
— in contrast to `ExportTask.run`, whose `finally` block sets it. -/
structure ScanTaskState where
  is_cancelled : Bool
  deriving DecidableEq, Repr

/-- The claim-relevant state of a `ScanManager`: its `current_task` slot,
initialised to `None` and never cleared. -/
structure ScanManagerState where
  current_task : Option ScanTaskState
  deriving DecidableEq, Repr

/-- `ScanManager.start_scan` (scan_manager.py:247-261): refuse if a task is
held and not cancelled; otherwise install a fresh task (with
`is_cancelled = False`) and report success. -/
def start_scan (m : ScanManagerState) : Bool × ScanManagerState :=
  match m.current_task with
  | some t => if !t.is_cancelled then (false, m) else (true, ⟨some ⟨false⟩⟩)
  | none => (true, ⟨some ⟨false⟩⟩)

/-- A `ScanTask` running to completion: `ScanTask.run` executes
`_scan_folders` and emits a signal, leaving `is_cancelled` untouched. -/
def scan_task_finish (m : ScanManagerState) : ScanManagerState :=
  ⟨m.current_task.map (fun t => t)⟩

/-- `ScanManager.cancel_scan` (scan_manager.py:263-267): sets the held
task's flag; `current_task` is kept (unlike `ExportManager.cancel_export`). -/
def cancel_scan (m : ScanManagerState) : ScanManagerState :=
  match m.current_task with
  | some _ => ⟨some ⟨true⟩⟩
  | none => m

/-- The results of `n` consecutive `start_scan` calls. -/
def start_scan_results (m : ScanManagerState) : Nat → List Bool
  | 0 => []
  | n + 1 =>
      let r := start_scan m
      r.1 :: start_scan_results r.2 n

/- ## Concrete instances used by the theorems -/

/-- Concrete storage state used to exercise `add_folder` / `add_image`. -/
def dbC3 : DB := DB.empty

/-- A database holding one image with two detected faces, both owned by the
sentinel person `not recognized` (id 1) and carrying identical embeddings:
the state of the worked scenario right after a scan, ready for clustering. -/
def dbTwoFaces : DB :=
  { folders := [⟨1, "/pics"⟩],
    images := [⟨1, 1, "/pics/a.jpg", "a.jpg", 100, 640, 480, "completed"⟩],
    persons := [⟨1, "not recognized", false⟩],
    faces :=
      [⟨1, 1, 1, some [1, 0], 10, 10, 50, 50, 1, false⟩,
       ⟨2, 1, 1, some [1, 0], 60, 10, 90, 50, 1, false⟩],
    albums := [],
    settings := [],
    nextFolderId := 2, nextImageId := 2, nextPersonId := 2, nextFaceId := 3 }

/-- A database with one confirmed person "Alice" who owns one photo and has
an album destination configured: the setting of the single-person export
scenario. -/
def dbC2 : DB :=
  { folders := [⟨1, "/pics"⟩],
    images := [⟨1, 1, "/pics/a.jpg", "a.jpg", 100, 640, 480, "completed"⟩],
    persons := [⟨1, "Alice", true⟩],
    faces := [⟨1, 1, 1, some [1, 0], 10, 10, 50, 50, 1, true⟩],
    albums := [⟨1, "/out"⟩],
    settings := [],
    nextFolderId := 2, nextImageId := 2, nextPersonId := 2, nextFaceId := 2 }

/-- Two confirmed persons with albums, one solo photo each. -/
def dbC5 : DB :=
  { folders := [⟨1, "/pics"⟩],
    images :=
      [⟨1, 1, "/pics/a.jpg", "a.jpg", 100, 640, 480, "completed"⟩,
       ⟨2, 1, "/pics/b.jpg", "b.jpg", 100, 640, 480, "completed"⟩],
    persons := [⟨1, "Alice", true⟩, ⟨2, "Bob", true⟩],
    faces :=
      [⟨1, 1, 1, some [1, 0], 10, 10, 50, 50, 1, true⟩,
       ⟨2, 2, 2, some [0, 1], 10, 10, 50, 50, 1, true⟩],
    albums := [⟨1, "/out"⟩, ⟨2, "/out"⟩],
    settings := [],
    nextFolderId := 2, nextImageId := 3, nextPersonId := 3, nextFaceId := 3 }

/-- A copy oracle under which copying `/pics/a.jpg` (and only it) fails. -/
def copyFailsA : String → String → Bool := fun s _ => !(s == "/pics/a.jpg")

/-- A database with the sentinel person and an unconfirmed auto-created
person `Person_007` owning one unconfirmed face. -/
def dbC9 : DB :=
  { folders := [⟨1, "/pics"⟩],
    images := [⟨1, 1, "/pics/a.jpg", "a.jpg", 100, 640, 480, "completed"⟩],
    persons := [⟨1, "not recognized", false⟩, ⟨7, "Person_007", false⟩],
    faces := [⟨1, 1, 7, some [1, 0], 10, 10, 50, 50, 1, false⟩],
    albums := [],
    settings := [],
    nextFolderId := 2, nextImageId := 2, nextPersonId := 8, nextFaceId := 2 }

/-- A database holding one image already registered as `pending` by an
earlier partial run, plus the sentinel person. -/
def dbC7 : DB :=
  { folders := [⟨1, "/pics"⟩],
    images := [⟨1, 1, "/pics/a.jpg", "a.jpg", 100, 0, 0, "pending"⟩],
    persons := [⟨1, "not recognized", false⟩],
    faces := [],
    albums := [],
    settings := [],
    nextFolderId := 2, nextImageId := 2, nextPersonId := 2, nextFaceId := 1 }

/-- A file on which `os.stat` raises (before registration); everything else
about the file would be fine. -/
def envStatFail : FileEnv :=
  ⟨false, 100, true, (640, 480), true, [], true⟩

/-- A file whose processing succeeds end to end (no detections). -/
def envGood : FileEnv :=
  ⟨true, 100, true, (640, 480), true, [], true⟩

/-- An empty database ready for a first scan of `/pics`. -/
def dbC6 : DB :=
  { folders := [⟨1, "/pics"⟩],
    images := [], persons := [], faces := [], albums := [], settings := [],
    nextFolderId := 2, nextImageId := 1, nextPersonId := 1, nextFaceId := 1 }

/-- A file the PIL size probe cannot read (`orig` recorded as 0×0) while
cv2 decodes it at 100×100 with one in-bounds detection. -/
def envNoPil : FileEnv :=
  ⟨true, 100, false, (100, 100), true, [⟨10, 10, 50, 50, 1, [1, 0]⟩], true⟩

/-- The single-file scan of the `envNoPil` file. -/
def filesC6 : List (String × FileEnv) := [("/pics/p.jpg", envNoPil)]

/-- A file registered fine but whose status UPDATE to `processing` raises at
the storage layer (a post-registration exception). -/
def envUpdFail : FileEnv :=
  ⟨true, 100, true, (640, 480), true, [], false⟩

/-- A two-file scan in which the first file fails after registration and
the second is healthy. -/
def filesC7w : List (String × FileEnv) :=
  [("/pics/c.jpg", envUpdFail), ("/pics/d.jpg", envGood)]

/-- Alice owns a solo photo and shares a group photo with Bob. -/
def dbC8 : DB :=
  { folders := [⟨1, "/pics"⟩],
    images :=
      [⟨1, 1, "/pics/a.jpg", "a.jpg", 100, 640, 480, "completed"⟩,
       ⟨2, 1, "/pics/g.jpg", "g.jpg", 100, 640, 480, "completed"⟩],
    persons := [⟨1, "Alice", true⟩, ⟨2, "Bob", true⟩],
    faces :=
      [⟨1, 1, 1, some [1, 0], 10, 10, 50, 50, 1, true⟩,
       ⟨2, 2, 1, some [1, 0], 10, 10, 50, 50, 1, true⟩,
       ⟨3, 2, 2, some [0, 1], 60, 10, 90, 50, 1, true⟩],
    albums := [⟨1, "/out"⟩, ⟨2, "/out"⟩],
    settings := [],
    nextFolderId := 2, nextImageId := 3, nextPersonId := 3, nextFaceId := 4 }

/- # Theorems -/

/-- C3: For every already-registered Folder or Image path, inserting the same
path again (add_folder / add_image) is claimed to create no duplicate row and
to return the id of the existing row.  The code does create no duplicate row,
but the repeated insert returns the falsy `lastrowid` of an ignored
`INSERT OR IGNORE` (0 on the method's fresh connection, modelled `none`),
not the existing id: the `IntegrityError` handler that would look the id up
is unreachable because `OR IGNORE` suppresses the UNIQUE violation.  This
theorem evaluates both methods at the failing input: the first calls return
id 1, the repeated calls return `none` while leaving the tables unchanged. -/
theorem duplicate_insert_returns_none :
    (add_folder dbC3 "/pics").1 = some 1 ∧
    (add_folder (add_folder dbC3 "/pics").2 "/pics").1 = none ∧
    (add_folder (add_folder dbC3 "/pics").2 "/pics").2.folders =
      (add_folder dbC3 "/pics").2.folders ∧
    (add_image (add_folder dbC3 "/pics").2 1 "/pics/a.jpg" "a.jpg" 100
        (some (640, 480))).1 = some 1 ∧
    (add_image
        (add_image (add_folder dbC3 "/pics").2 1 "/pics/a.jpg" "a.jpg" 100
          (some (640, 480))).2
        1 "/pics/a.jpg" "a.jpg" 100 (some (640, 480))).1 = none ∧
    (add_image
        (add_image (add_folder dbC3 "/pics").2 1 "/pics/a.jpg" "a.jpg" 100
          (some (640, 480))).2
        1 "/pics/a.jpg" "a.jpg" 100 (some (640, 480))).2.images =
      (add_image (add_folder dbC3 "/pics").2 1 "/pics/a.jpg" "a.jpg" 100
        (some (640, 480))).2.images := by
  decide

/- ## C1: applying clusters to the database -/

/-- C1: The claim says each non-noise DBSCAN cluster becomes one new Person
named `Person_<N>` (counter incremented, zero-padded) with every face of the
cluster reassigned and `is_person` cleared.  That is indeed what the body of
`apply_clusters_to_database` is written to do, but its very first step,
`self._get_next_cluster_id()`, calls
`self.db_manager.get_total_faces_count()` and `DatabaseManager` has no such
method (it lives on the UI class `FacesTab`), so every application run
raises `AttributeError`, is caught by the method's `except`, and returns 0.
Evaluated here at a database with one non-noise cluster of two faces: no
person is created, no face is moved, the counter setting is untouched. -/
theorem cluster_apply_always_fails :
    apply_clusters_to_database dbTwoFaces [(0, [1, 2])] = (0, dbTwoFaces) := by
  decide

/- ## C4: similarity lookup -/

/-- C4: The claim says `find_similar_faces` returns exactly the other faces
with cosine similarity ≥ threshold, descending.  The rows of
`get_all_face_embeddings` have four columns (`is_person` was appended), but
the loop unpacks each row into three variables, so the first row raises
`ValueError`, the surrounding `except` catches it, and the function returns
`[]` — for every similarity oracle and every threshold.  In `dbTwoFaces`,
face 2 carries the same embedding as face 1 (similarity 1), yet the lookup
for face 1 returns nothing. -/
theorem find_similar_faces_always_empty :
    ∀ (sim : Emb → Emb → ℚ) (threshold : ℚ),
      find_similar_faces sim dbTwoFaces 1 threshold = [] :=
  fun _ _ => rfl

/- ## C2: single-person export -/

/-- C2: The claim says an export run for a single target person with photos
and a configured destination creates the album directories, copies the
photos and reports success.  With a target person `_export_albums` builds
the persons list as the two-tuple `(person_id, "Selected Person")`, which
both loops unpack into four variables: the first loop raises `ValueError`,
the `except` reports failure, and nothing is created on disk.  Evaluated
here for person 1 ("Alice"), who does have a photo and an album: the run
reports failure and the filesystem is untouched. -/
theorem export_single_person_always_fails :
    export_albums dbC2 (fun _ _ => true) ⟨[]⟩ (some 1) =
      ((false, "Export error: ValueError"), ⟨[]⟩) ∧
    get_person_photos dbC2 1 ≠ [] ∧
    get_persons_with_albums dbC2 ≠ [] := by
  refine ⟨rfl, ?_, ?_⟩ <;> decide

/- ## C5: copy failures during export -/

/-- C5 counterexample: the claim says a failed copy is logged against that
item only, the run continues with the remaining files and persons, and at
most that one file's copy fails.  In `dbC5`, Alice and Bob each have one
solo photo and an album under `/out`; with a copy oracle under which only
Alice's `/pics/a.jpg` fails, the whole run reports failure and Bob's photo
is never copied — Bob had a photo to export, yet `/out/Bob/b.jpg` does not
exist afterwards. -/
theorem export_copy_failure_stops_run_cx :
    (export_albums dbC5 copyFailsA ⟨[]⟩ none).1.1 = false ∧
    ((export_albums dbC5 copyFailsA ⟨[]⟩ none).2.paths.contains
      "/out/Bob/b.jpg") = false ∧
    get_single_photos dbC5 2 ≠ [] := by
  refine ⟨rfl, rfl, ?_⟩
  decide

/-- Every row produced by `get_persons_with_albums` has the four columns
`(id, name, is_confirmed, output_path)`. -/
theorem mem_persons_with_albums_shape (db : DB) :
    ∀ row ∈ get_persons_with_albums db, ∃ pid pname outp,
      row = [PyVal.int pid, PyVal.str pname, PyVal.int 1, PyVal.str outp] := by
  intro row hrow
  unfold get_persons_with_albums at hrow
  rw [List.mem_flatMap] at hrow
  obtain ⟨p, _hp, hrow⟩ := hrow
  by_cases hc : p.isConfirmed
  · rw [if_pos hc, List.mem_map] at hrow
    obtain ⟨a, _ha, heq⟩ := hrow
    exact ⟨p.id, p.name, a.outputPath, heq.symm⟩
  · rw [if_neg hc] at hrow
    cases hrow

/-- The photo-counting loop of `_export_albums` succeeds on any list of
well-shaped person rows. -/
theorem count_photos_loop_ok (db : DB) :
    ∀ (rows : List Row) (t : Nat),
      (∀ row ∈ rows, ∃ pid pname outp,
        row = [PyVal.int pid, PyVal.str pname, PyVal.int 1, PyVal.str outp]) →
      ∃ total, count_photos_loop db rows t = .ok total := by
  intro rows
  induction rows with
  | nil => exact fun t _ => ⟨t, rfl⟩
  | cons row rest ih =>
      intro t hshape
      obtain ⟨pid, pname, outp, heq⟩ := hshape row (List.mem_cons_self row rest)
      subst heq
      exact ih _ (fun r hr => hshape r (List.mem_cons_of_mem _ hr))

/-- C5 amended: a failure to copy one file during an export run is logged
against that item, but it is fatal rather than recoverable: `_copy_photo`
re-raises, the person's album export returns failure, and the whole
multi-person run stops at once with that failure message, leaving the
filesystem exactly as it was at the failed copy — no remaining file or
person is processed.  The failure hypothesis says that one of the two copy
loops of the first listed person's album raises (with the filesystem `fsE`
as committed so far). -/
theorem export_copy_failure_is_fatal
    (db : DB) (copyOk : String → String → Bool) (fs0 fsE : FS)
    (pid : Nat) (pname outp e : String) (rest : List Row)
    (hpersons : get_persons_with_albums db =
      [PyVal.int pid, PyVal.str pname, PyVal.int 1, PyVal.str outp] :: rest)
    (hfail :
      copy_list copyOk
          (makedirs (makedirs fs0 (os_path_join outp pname))
            (os_path_join (os_path_join outp pname) "with_friends"))
          (os_path_join outp pname)
          ((get_single_photos db pid).map (fun r => (r.1, r.2.1))) =
        .error (e, fsE) ∨
      ∃ fs3,
        copy_list copyOk
            (makedirs (makedirs fs0 (os_path_join outp pname))
              (os_path_join (os_path_join outp pname) "with_friends"))
            (os_path_join outp pname)
            ((get_single_photos db pid).map (fun r => (r.1, r.2.1))) =
          .ok fs3 ∧
        copy_list copyOk fs3
            (os_path_join (os_path_join outp pname) "with_friends")
            ((get_photos_with_multiple_faces db pid).map
              (fun r => (r.1, r.2.1))) = .error (e, fsE)) :
    export_person_album db copyOk fs0 pid pname outp =
      ((false, "Export error for " ++ pname ++ ": " ++ e), fsE) ∧
    export_albums db copyOk fs0 none =
      ((false, "Export error for " ++ pname ++ ": " ++ e), fsE) := by
  have halbum : export_person_album db copyOk fs0 pid pname outp =
      ((false, "Export error for " ++ pname ++ ": " ++ e), fsE) := by
    rcases hfail with h | ⟨fs3, h3, h4⟩
    · simp only [export_person_album]
      rw [h]
    · simp only [export_person_album]
      simp only [h3, h4]
  refine ⟨halbum, ?_⟩
  have hshape := mem_persons_with_albums_shape db
  rw [hpersons] at hshape
  obtain ⟨total, hcount⟩ := count_photos_loop_ok db _ 0 hshape
  simp only [export_albums]
  rw [hpersons, hcount]
  simp only [List.isEmpty_cons, Bool.false_eq_true, if_false]
  simp only [export_persons_loop, unpack4, halbum]

/-- Witness for `export_copy_failure_is_fatal`: in `dbC5` with the copy
oracle failing on Alice's photo, the whole run fails with Alice's copy error
and the filesystem holds only Alice's two album directories. -/
theorem export_copy_failure_is_fatal_witness :
    get_persons_with_albums dbC5 =
      [PyVal.int 1, PyVal.str "Alice", PyVal.int 1, PyVal.str "/out"] ::
        [[PyVal.int 2, PyVal.str "Bob", PyVal.int 1, PyVal.str "/out"]] ∧
    export_albums dbC5 copyFailsA ⟨[]⟩ none =
      ((false, "Export error for Alice: copy error: /pics/a.jpg"),
       ⟨["/out/Alice", "/out/Alice/with_friends"]⟩) :=
  ⟨rfl,
   (export_copy_failure_is_fatal dbC5 copyFailsA ⟨[]⟩
      ⟨["/out/Alice", "/out/Alice/with_friends"]⟩ 1 "Alice" "/out"
      "copy error: /pics/a.jpg"
      [[PyVal.int 2, PyVal.str "Bob", PyVal.int 1, PyVal.str "/out"]]
      rfl (Or.inl rfl)).2⟩

/- ## C9: renaming a person -/

/-- C9 counterexample: the claim says renaming `Person_007` to the unused
name `Alice` sets `is_confirmed` on the person AND `is_person = true` on all
its faces.  The rename branch of `FacesTab.rename_person` calls only
`update_person_name` and `confirm_person`; the faces table is untouched, so
face 1 (owned by person 7, unconfirmed) still has `is_person = false`. -/
theorem rename_person_leaves_faces_cx :
    ((rename_person dbC9 7 "Person_007" "Alice").persons.find?
        (fun p => p.id == 7)).map (fun p => (p.name, p.isConfirmed)) =
      some ("Alice", true) ∧
    ((rename_person dbC9 7 "Person_007" "Alice").faces.find?
        (fun f => f.id == 1)).map (fun f => f.isPerson) = some false := by
  decide

/-- C9 amended: renaming a person to a name not already in use sets
`is_confirmed = true` on that person (and updates the name); the faces table
— in particular every face's `is_person` flag — is left unchanged.  Setting
`is_person` on a person's faces is the separate "confirm all faces"
action. -/
theorem rename_unused_name_confirms_person_only
    (db : DB) (pid : Nat) (cur new : String)
    (h1 : new ≠ "") (h2 : new ≠ cur)
    (h3 : get_person_by_name db new = none) :
    (rename_person db pid cur new).faces = db.faces ∧
    (rename_person db pid cur new).persons =
      db.persons.map (fun p =>
        if p.id == pid then { p with name := new, isConfirmed := true }
        else p) := by
  unfold rename_person
  rw [if_neg (not_or.mpr ⟨h1, h2⟩), h3]
  refine ⟨rfl, ?_⟩
  show (db.persons.map _).map _ = _
  rw [List.map_map]
  refine List.map_congr_left ?_
  intro p _
  by_cases h : p.id == pid <;> simp [Function.comp, h]

/-- Witness for `rename_unused_name_confirms_person_only`: renaming
`Person_007` to the unused `Alice` in `dbC9`. -/
theorem rename_unused_name_confirms_person_only_witness :
    get_person_by_name dbC9 "Alice" = none ∧
    (rename_person dbC9 7 "Person_007" "Alice").faces = dbC9.faces ∧
    (rename_person dbC9 7 "Person_007" "Alice").persons =
      dbC9.persons.map (fun p =>
        if p.id == 7 then { p with name := "Alice", isConfirmed := true }
        else p) :=
  ⟨rfl,
   rename_unused_name_confirms_person_only dbC9 7 "Person_007" "Alice"
     (by decide) (by decide) rfl⟩

/- ## C10: starting a second scan -/

/-- C10: starting a scan on a fresh manager succeeds, and once that task's
`run` finishes — `ScanTask.run` never touches `is_cancelled` and
`current_task` is never cleared — every one of the next `n` calls to
`start_scan` returns `False`, for every `n`, until a cancellation
intervenes. -/
theorem scan_start_blocked_after_finish :
    ∀ n : Nat,
      (start_scan ⟨none⟩).1 = true ∧
      start_scan_results (scan_task_finish (start_scan ⟨none⟩).2) n =
        List.replicate n false := by
  intro n
  refine ⟨rfl, ?_⟩
  induction n with
  | zero => rfl
  | succ k ih =>
      simpa [start_scan_results, start_scan, scan_task_finish,
        List.replicate] using ih

/- ## Scan-pipeline lemmas (shared by C6 and C7) -/

/-- A status UPDATE aimed at an id at or above every id in the list leaves
the list unchanged. -/
theorem image_update_map_id (N : Nat) (s : String) :
    ∀ (l : List ImageRow), (∀ img ∈ l, img.id < N) →
      l.map (fun im => if im.id == N then { im with status := s } else im) =
        l := by
  intro l
  induction l with
  | nil => intro _; rfl
  | cons a t ih =>
      intro h
      have ha : ¬ a.id = N := Nat.ne_of_lt (h a (List.mem_cons_self a t))
      simp only [List.map_cons]
      rw [if_neg (by simpa using ha),
        ih (fun x hx => h x (List.mem_cons_of_mem _ hx))]

/-- `find?` over an appended list: first the left part, then the right. -/
theorem find_image_append (p : String) :
    ∀ (l₁ l₂ : List ImageRow),
      (l₁ ++ l₂).find? (fun i => i.filePath == p) =
        match l₁.find? (fun i => i.filePath == p) with
        | some r => some r
        | none => l₂.find? (fun i => i.filePath == p) := by
  intro l₁ l₂
  induction l₁ with
  | nil => rfl
  | cons a t ih =>
      by_cases ha : (a.filePath == p) = true
      · simp [List.find?_cons, ha]
      · simp [List.find?_cons, ha, ih]

/-- `find?` misses a list none of whose members carry the path. -/
theorem find_image_none (l : List ImageRow) (p : String)
    (h : ∀ img ∈ l, ¬ img.filePath = p) :
    l.find? (fun i => i.filePath == p) = none :=
  List.find?_eq_none.mpr (fun x hx => by simpa using h x hx)

/-- A status UPDATE over an appended fresh row: the old rows are untouched,
the fresh row's status changes. -/
theorem update_append_images (l : List ImageRow) (row : ImageRow) (N : Nat)
    (s : String) (hl : ∀ img ∈ l, img.id < N) (hrow : row.id = N) :
    (l ++ [row]).map
        (fun im => if im.id == N then { im with status := s } else im) =
      l ++ [{ row with status := s }] := by
  rw [List.map_append, image_update_map_id N s l hl]
  simp [hrow]

/-- `store_faces` only touches the faces table. -/
theorem store_faces_images (image_id person_id : Nat) :
    ∀ (dets : List DetOut) (db : DB),
      (store_faces db image_id person_id dets).images = db.images ∧
      (store_faces db image_id person_id dets).nextImageId =
        db.nextImageId := by
  intro dets
  induction dets with
  | nil => intro db; exact ⟨rfl, rfl⟩
  | cons d rest ih =>
      intro db
      simpa only [store_faces] using ih _

/-- On a not-yet-completed, not-yet-registered file whose `os.stat`
succeeds, the per-file step is exactly: insert the pending row, then either
mark it `error` (when the status UPDATE raises) or run
processing/detection/storage to completion. -/
theorem process_file_insert_eq (db : DB) (fid nr : Nat) (q : String)
    (env : FileEnv)
    (h1 : ¬ image_already_processed db q = true)
    (h2 : env.statOk = true)
    (h3 : ¬ (db.images.any (fun i => i.filePath == q)) = true) :
    process_file db fid nr q env =
      if !env.updOk then
        update_image_status
          { db with
              images := db.images ++
                [⟨db.nextImageId, fid, q, basename q, env.fileSize,
                  (if env.pilOk then env.dims else (0, 0)).1,
                  (if env.pilOk then env.dims else (0, 0)).2, "pending"⟩],
              nextImageId := db.nextImageId + 1 }
          db.nextImageId "error"
      else
        update_image_status
          (store_faces
            (update_image_status
              { db with
                  images := db.images ++
                    [⟨db.nextImageId, fid, q, basename q, env.fileSize,
                      (if env.pilOk then env.dims else (0, 0)).1,
                      (if env.pilOk then env.dims else (0, 0)).2, "pending"⟩],
                  nextImageId := db.nextImageId + 1 }
              db.nextImageId "processing")
            db.nextImageId nr (detect_faces env))
          db.nextImageId "completed" := by
  have hrowP : add_image db fid q (basename q) env.fileSize
        (if env.pilOk then some env.dims else none) =
      (some db.nextImageId,
       { db with
          images := db.images ++
            [⟨db.nextImageId, fid, q, basename q, env.fileSize,
              (if env.pilOk then env.dims else (0, 0)).1,
              (if env.pilOk then env.dims else (0, 0)).2, "pending"⟩],
          nextImageId := db.nextImageId + 1 }) := by
    unfold add_image
    rw [if_neg h3]
    cases env.pilOk <;> rfl
  simp only [process_file, h1, h2, Bool.not_true, Bool.false_eq_true,
    if_false, ite_false]
  rw [hrowP]

/-- The per-file step either leaves the images table and its counter alone,
or registers exactly one new row for the processed path — carrying the fresh
id, the probed (or defaulted) original dimensions and some terminal
status — and bumps the counter. -/
theorem process_file_cases (db : DB) (fid nr : Nat) (q : String)
    (env : FileEnv)
    (hwf : ∀ img ∈ db.images, img.id < db.nextImageId) :
    ((process_file db fid nr q env).nextImageId = db.nextImageId ∧
      (process_file db fid nr q env).images = db.images) ∨
    ((process_file db fid nr q env).nextImageId = db.nextImageId + 1 ∧
      ∃ st, (process_file db fid nr q env).images =
        db.images ++ [⟨db.nextImageId, fid, q, basename q, env.fileSize,
          (if env.pilOk then env.dims else (0, 0)).1,
          (if env.pilOk then env.dims else (0, 0)).2, st⟩]) := by
  by_cases h1 : image_already_processed db q = true
  · left
    constructor <;> simp [process_file, h1]
  · by_cases h2 : env.statOk = true
    · by_cases h3 : (db.images.any (fun i => i.filePath == q)) = true
      · left
        constructor <;> simp [process_file, h1, h2, add_image, h3]
      · right
        rw [process_file_insert_eq db fid nr q env h1 h2 h3]
        have hst1 : ∀ d : DB,
            (store_faces d db.nextImageId nr (detect_faces env)).images =
              d.images :=
          fun d => (store_faces_images db.nextImageId nr (detect_faces env) d).1
        have hst2 : ∀ d : DB,
            (store_faces d db.nextImageId nr (detect_faces env)).nextImageId =
              d.nextImageId :=
          fun d => (store_faces_images db.nextImageId nr (detect_faces env) d).2
        cases h4 : env.updOk
        · simp only [Bool.not_false, if_true, ite_true]
          refine ⟨rfl, "error", ?_⟩
          simp only [update_image_status]
          exact update_append_images db.images _ db.nextImageId "error" hwf rfl
        · simp only [Bool.not_true, Bool.false_eq_true, if_false, ite_false]
          refine ⟨?_, "completed", ?_⟩
          · simp only [update_image_status, hst2]
          · simp only [update_image_status, hst1]
            rw [update_append_images db.images _ db.nextImageId "processing"
              hwf rfl]
            rw [update_append_images db.images _ db.nextImageId "completed"
              hwf rfl]
    · left
      constructor <;> simp [process_file, h1, h2]

/-- The per-file step keeps every image id below the counter. -/
theorem process_file_wf (db : DB) (fid nr : Nat) (q : String) (env : FileEnv)
    (hwf : ∀ img ∈ db.images, img.id < db.nextImageId) :
    ∀ img ∈ (process_file db fid nr q env).images,
      img.id < (process_file db fid nr q env).nextImageId := by
  rcases process_file_cases db fid nr q env hwf with ⟨hn, himg⟩ | ⟨hn, st, himg⟩
  · rw [himg, hn]; exact hwf
  · rw [himg, hn]
    intro img h
    rcases List.mem_append.mp h with h | h
    · exact Nat.lt_succ_of_lt (hwf img h)
    · simp only [List.mem_singleton] at h
      subst h
      exact Nat.lt_succ_self _

/-- Processing one file never changes the recorded status of a DIFFERENT
path. -/
theorem process_file_status_frame (db : DB) (fid nr : Nat) (q : String)
    (env : FileEnv) (p : String) (hpq : ¬ q = p)
    (hwf : ∀ img ∈ db.images, img.id < db.nextImageId) :
    scan_status_of (process_file db fid nr q env) p = scan_status_of db p := by
  rcases process_file_cases db fid nr q env hwf with ⟨_, himg⟩ | ⟨_, st, himg⟩
  · unfold scan_status_of
    rw [himg]
  · unfold scan_status_of
    rw [himg, find_image_append]
    have hsingle :
        ([(⟨db.nextImageId, fid, q, basename q, env.fileSize,
            (if env.pilOk then env.dims else (0, 0)).1,
            (if env.pilOk then env.dims else (0, 0)).2, st⟩ : ImageRow)]).find?
          (fun i => i.filePath == p) = none := by
      simp [List.find?, beq_eq_false_iff_ne.mpr hpq]
    rw [hsingle]
    cases db.images.find? (fun i => i.filePath == p) <;> rfl

/-- Every image row after one per-file step carries either the processed
path or a path that was already present. -/
theorem process_file_paths (db : DB) (fid nr : Nat) (q : String)
    (env : FileEnv)
    (hwf : ∀ img ∈ db.images, img.id < db.nextImageId) :
    ∀ img ∈ (process_file db fid nr q env).images,
      img.filePath = q ∨ ∃ img0 ∈ db.images, img.filePath = img0.filePath := by
  rcases process_file_cases db fid nr q env hwf with ⟨_, himg⟩ | ⟨_, st, himg⟩
  · rw [himg]
    intro img h
    exact Or.inr ⟨img, h, rfl⟩
  · rw [himg]
    intro img h
    rcases List.mem_append.mp h with h | h
    · exact Or.inr ⟨img, h, rfl⟩
    · simp only [List.mem_singleton] at h
      subst h
      exact Or.inl rfl

/-- Processing a previously unseen file drives it to exactly the status the
location of its failure dictates. -/
theorem process_file_status_self (db : DB) (fid nr : Nat) (p : String)
    (env : FileEnv)
    (hfresh : ∀ img ∈ db.images, ¬ img.filePath = p)
    (hwf : ∀ img ∈ db.images, img.id < db.nextImageId) :
    scan_status_of (process_file db fid nr p env) p =
      expected_file_status env := by
  have h1 : ¬ image_already_processed db p = true := by
    simp only [image_already_processed, List.any_eq_true, Bool.and_eq_true,
      beq_iff_eq]
    rintro ⟨i, hi, hpath, _⟩
    exact hfresh i hi hpath
  have h3 : ¬ (db.images.any (fun i => i.filePath == p)) = true := by
    simp only [List.any_eq_true, beq_iff_eq]
    rintro ⟨i, hi, hpath⟩
    exact hfresh i hi hpath
  have hnone : db.images.find? (fun i => i.filePath == p) = none :=
    find_image_none db.images p hfresh
  cases h2 : env.statOk
  · have hdb : process_file db fid nr p env = db := by
      simp [process_file, h1, h2]
    rw [hdb]
    unfold scan_status_of
    rw [hnone]
    simp [expected_file_status, h2]
  · rw [process_file_insert_eq db fid nr p env h1 h2 h3]
    have hst1 : ∀ d : DB,
        (store_faces d db.nextImageId nr (detect_faces env)).images =
          d.images :=
      fun d => (store_faces_images db.nextImageId nr (detect_faces env) d).1
    cases h4 : env.updOk
    · simp only [Bool.not_false, if_true, ite_true]
      unfold scan_status_of
      simp only [update_image_status]
      rw [update_append_images db.images _ db.nextImageId "error" hwf rfl,
        find_image_append, hnone]
      simp [List.find?, expected_file_status, h2, h4]
    · simp only [Bool.not_true, Bool.false_eq_true, if_false, ite_false]
      unfold scan_status_of
      simp only [update_image_status, hst1]
      rw [update_append_images db.images _ db.nextImageId "processing" hwf
          rfl,
        update_append_images db.images _ db.nextImageId "completed" hwf rfl,
        find_image_append, hnone]
      simp [List.find?, expected_file_status, h2, h4]

/-- A scan's remaining files never change the status of a path none of them
carries. -/
theorem scan_files_frame (fid nr : Nat) :
    ∀ (rest : List (String × FileEnv)) (db : DB) (p : String),
      (∀ r ∈ rest.map Prod.fst, ¬ r = p) →
      (∀ img ∈ db.images, img.id < db.nextImageId) →
      scan_status_of (scan_files db fid nr rest) p = scan_status_of db p := by
  intro rest
  induction rest with
  | nil => intro db p _ _; rfl
  | cons qe t ih =>
      obtain ⟨q, enq⟩ := qe
      intro db p hq hwf
      simp only [scan_files]
      rw [ih _ p (fun r hr => hq r (by simp [hr]))
        (process_file_wf db fid nr q enq hwf)]
      exact process_file_status_frame db fid nr q enq p (hq q (by simp)) hwf

/-- Over a run on pairwise-distinct, previously unregistered paths, every
file ends in exactly the status its own environment dictates — regardless
of what happens to the other files. -/
theorem scan_files_status (fid nr : Nat) :
    ∀ (files : List (String × FileEnv)) (db : DB),
      (files.map Prod.fst).Nodup →
      (∀ pq ∈ files.map Prod.fst, ∀ img ∈ db.images, ¬ img.filePath = pq) →
      (∀ img ∈ db.images, img.id < db.nextImageId) →
      ∀ p env, (p, env) ∈ files →
        scan_status_of (scan_files db fid nr files) p =
          expected_file_status env := by
  intro files
  induction files with
  | nil =>
      intro db _ _ _ p env h
      cases h
  | cons qe t ih =>
      obtain ⟨q, enq⟩ := qe
      intro db hnd hfr hwf p env hmem
      have hq0 : q ∉ t.map Prod.fst :=
        (List.nodup_cons.mp (by simpa using hnd)).1
      have hwf' := process_file_wf db fid nr q enq hwf
      simp only [scan_files]
      rcases List.mem_cons.mp hmem with heq | hmem'
      · injection heq with hp he
        subst hp
        subst he
        have hq : ∀ r ∈ t.map Prod.fst, ¬ r = p := by
          intro r hr hrp
          subst hrp
          exact hq0 hr
        rw [scan_files_frame fid nr t _ p hq hwf']
        exact process_file_status_self db fid nr p env (hfr p (by simp)) hwf
      · refine ih _ ?_ ?_ hwf' p env hmem'
        · exact (List.nodup_cons.mp (by simpa using hnd)).2
        · intro pq hpq img himg
          rcases process_file_paths db fid nr q enq hwf img himg with
            h | ⟨img0, h0, hp0⟩
          · rw [h]
            exact fun hqp => hq0 (hqp ▸ hpq)
          · rw [hp0]
            exact hfr pq (by simp [hpq]) img0 h0

/- ## C7: exceptions during a scan -/

/-- C7 counterexample: the claim says that for EVERY image file whose
processing raises an exception the image's status is set to `error`.  When
the exception is raised before registration — here `os.stat` fails on
`/pics/a.jpg`, which an earlier partial run had left registered as
`pending` — `image_id` is still `None`, so the `except` handler skips the
status update: the row stays `pending`, not `error`.  The run does continue
(the healthy second file completes). -/
theorem scan_pre_registration_error_cx :
    scan_status_of
        (scan_run dbC7 1
          [("/pics/a.jpg", envStatFail), ("/pics/b.jpg", envGood)])
        "/pics/a.jpg" = some "pending" ∧
    ¬ scan_status_of
        (scan_run dbC7 1
          [("/pics/a.jpg", envStatFail), ("/pics/b.jpg", envGood)])
        "/pics/a.jpg" = some "error" ∧
    scan_status_of
        (scan_run dbC7 1
          [("/pics/a.jpg", envStatFail), ("/pics/b.jpg", envGood)])
        "/pics/b.jpg" = some "completed" := by
  refine ⟨rfl, ?_, rfl⟩
  decide

/-- C7 amended: during a scan run over previously unseen, pairwise-distinct
files, each file's terminal state is decided by its own processing alone —
one bad file never aborts the run or affects any other file — and a raised
exception marks the image `error` exactly when it occurs after the image was
registered (an image id was obtained); an exception before registration
leaves no row.  `expected_file_status` is that per-file verdict: no row for
a pre-registration failure, `error` for a post-registration failure,
`completed` otherwise. -/
theorem scan_exception_status (db : DB) (fid : Nat)
    (files : List (String × FileEnv))
    (hnodup : (files.map Prod.fst).Nodup)
    (hfresh : ∀ pq ∈ files.map Prod.fst, ∀ img ∈ db.images,
      ¬ img.filePath = pq)
    (hwf : ∀ img ∈ db.images, img.id < db.nextImageId) :
    ∀ p env, (p, env) ∈ files →
      scan_status_of (scan_run db fid files) p = expected_file_status env := by
  unfold scan_run
  cases hnr : get_person_by_name db "not recognized"
  · exact scan_files_status fid _ files _ hnodup hfresh hwf
  · exact scan_files_status fid _ files db hnodup hfresh hwf

/-- Witness for `scan_exception_status`: scanning two fresh files where the
first fails after registration and the second is healthy, the first ends
`error` and the second `completed`. -/
theorem scan_exception_status_witness :
    (filesC7w.map Prod.fst).Nodup ∧
    scan_status_of (scan_run dbC6 1 filesC7w) "/pics/c.jpg" =
      expected_file_status envUpdFail ∧
    scan_status_of (scan_run dbC6 1 filesC7w) "/pics/d.jpg" =
      expected_file_status envGood :=
  ⟨by decide,
   scan_exception_status dbC6 1 filesC7w (by decide) (by decide) (by decide)
     "/pics/c.jpg" envUpdFail (by decide),
   scan_exception_status dbC6 1 filesC7w (by decide) (by decide) (by decide)
     "/pics/d.jpg" envGood (by decide)⟩

/- ## C6: bounding-box bounds -/

/-- Every detection `detect_faces` keeps is clamped into the decoded pixel
space and non-degenerate. -/
theorem detect_faces_bounds (env : FileEnv) :
    ∀ d ∈ detect_faces env,
      0 ≤ d.x1 ∧ d.x1 < d.x2 ∧ d.x2 ≤ (env.dims.1 : ℚ) ∧
      0 ≤ d.y1 ∧ d.y1 < d.y2 ∧ d.y2 ≤ (env.dims.2 : ℚ) := by
  intro d hd
  unfold detect_faces at hd
  by_cases hdec : env.decodeOk = true
  · rw [if_pos hdec, List.mem_filterMap] at hd
    obtain ⟨raw, _hraw, hsome⟩ := hd
    dsimp only at hsome
    split at hsome
    · cases hsome
    · rename_i hcond
      injection hsome with hsome
      subst hsome
      push_neg at hcond
      exact ⟨le_max_left 0 _, hcond.1, min_le_left _ _,
        le_max_left 0 _, hcond.2, min_le_left _ _⟩
  · rw [if_neg hdec] at hd
    cases hd

/-- Every face present after `store_faces` is either an old face or carries
the stored image id and the coordinates of one of the detections. -/
theorem store_faces_faces (image_id person_id : Nat) :
    ∀ (dets : List DetOut) (db : DB) (f : FaceRow),
      f ∈ (store_faces db image_id person_id dets).faces →
      f ∈ db.faces ∨ ∃ d ∈ dets, f.imageId = image_id ∧ f.x1 = d.x1 ∧
        f.y1 = d.y1 ∧ f.x2 = d.x2 ∧ f.y2 = d.y2 := by
  intro dets
  induction dets with
  | nil => exact fun db f hf => Or.inl hf
  | cons d rest ih =>
      intro db f hf
      rcases ih _ f (by simpa [store_faces] using hf) with
        h | ⟨d0, hd0, hflds⟩
      · rcases List.mem_append.mp h with h' | h'
        · exact Or.inl h'
        · simp only [List.mem_singleton] at h'
          subst h'
          exact Or.inr ⟨d, List.mem_cons_self d rest, rfl, rfl, rfl, rfl, rfl⟩
      · exact Or.inr ⟨d0, List.mem_cons_of_mem _ hd0, hflds⟩

/-- Rows already in the images table survive a per-file step unchanged. -/
theorem process_file_images_monotone (db : DB) (fid nr : Nat) (q : String)
    (env : FileEnv)
    (hwf : ∀ img ∈ db.images, img.id < db.nextImageId) :
    ∀ img ∈ db.images, img ∈ (process_file db fid nr q env).images := by
  rcases process_file_cases db fid nr q env hwf with ⟨_, himg⟩ | ⟨_, st, himg⟩
      <;> rw [himg]
  · exact fun img h => h
  · exact fun img h => List.mem_append_left _ h

/-- `face_in_bounds` transfers along a database whose images table only
grows. -/
theorem face_in_bounds_mono (files : List (String × FileEnv)) (db db2 : DB)
    (f : FaceRow) (hsub : ∀ img ∈ db.images, img ∈ db2.images)
    (h : face_in_bounds files db f) : face_in_bounds files db2 f := by
  obtain ⟨img, him, hid, env, hmem, hb⟩ := h
  exact ⟨img, hsub img him, hid, env, hmem, hb⟩

/-- Every face present after a per-file step is an old face, or was created
by this step: it then carries the fresh image id and the clamped coordinates
of one of the file's detections, and its image row (path, probed original
dimensions) is present afterwards. -/
theorem process_file_faces_cases (db : DB) (fid nr : Nat) (q : String)
    (env : FileEnv)
    (hwf : ∀ img ∈ db.images, img.id < db.nextImageId) :
    ∀ f ∈ (process_file db fid nr q env).faces,
      f ∈ db.faces ∨
      ((∃ d ∈ detect_faces env, f.imageId = db.nextImageId ∧ f.x1 = d.x1 ∧
          f.y1 = d.y1 ∧ f.x2 = d.x2 ∧ f.y2 = d.y2) ∧
        ∃ img ∈ (process_file db fid nr q env).images,
          img.id = db.nextImageId ∧ img.filePath = q ∧
          img.origW = (if env.pilOk then env.dims else (0, 0)).1 ∧
          img.origH = (if env.pilOk then env.dims else (0, 0)).2) := by
  by_cases h1 : image_already_processed db q = true
  · intro f hf
    left
    simpa [process_file, h1] using hf
  · by_cases h2 : env.statOk = true
    · by_cases h3 : (db.images.any (fun i => i.filePath == q)) = true
      · intro f hf
        left
        simpa [process_file, h1, h2, add_image, h3] using hf
      · have hins := process_file_insert_eq db fid nr q env h1 h2 h3
        have hst1 : ∀ d : DB,
            (store_faces d db.nextImageId nr (detect_faces env)).images =
              d.images :=
          fun d =>
            (store_faces_images db.nextImageId nr (detect_faces env) d).1
        rw [hins]
        cases h4 : env.updOk
        · simp only [Bool.not_false, if_true, ite_true]
          intro f hf
          left
          simpa [update_image_status] using hf
        · simp only [Bool.not_true, Bool.false_eq_true, if_false, ite_false]
          intro f hf
          have hf2 : f ∈ (store_faces
              (update_image_status
                { db with
                    images := db.images ++
                      [⟨db.nextImageId, fid, q, basename q, env.fileSize,
                        (if env.pilOk then env.dims else (0, 0)).1,
                        (if env.pilOk then env.dims else (0, 0)).2,
                        "pending"⟩],
                    nextImageId := db.nextImageId + 1 }
                db.nextImageId "processing")
              db.nextImageId nr (detect_faces env)).faces := hf
          rcases store_faces_faces db.nextImageId nr (detect_faces env) _ f
              hf2 with h | ⟨d, hd, hflds⟩
          · exact Or.inl h
          · right
            refine ⟨⟨d, hd, hflds⟩, ?_⟩
            have himgs : (update_image_status
                (store_faces
                  (update_image_status
                    { db with
                        images := db.images ++
                          [⟨db.nextImageId, fid, q, basename q, env.fileSize,
                            (if env.pilOk then env.dims else (0, 0)).1,
                            (if env.pilOk then env.dims else (0, 0)).2,
                            "pending"⟩],
                        nextImageId := db.nextImageId + 1 }
                    db.nextImageId "processing")
                  db.nextImageId nr (detect_faces env))
                db.nextImageId "completed").images =
                db.images ++
                  [⟨db.nextImageId, fid, q, basename q, env.fileSize,
                    (if env.pilOk then env.dims else (0, 0)).1,
                    (if env.pilOk then env.dims else (0, 0)).2,
                    "completed"⟩] := by
              simp only [update_image_status, hst1]
              rw [update_append_images db.images _ db.nextImageId
                  "processing" hwf rfl,
                update_append_images db.images _ db.nextImageId "completed"
                  hwf rfl]
            rw [himgs]
            exact ⟨_, List.mem_append_right _ (List.mem_singleton_self _),
              rfl, rfl, rfl, rfl⟩
    · intro f hf
      left
      simpa [process_file, h1, h2] using hf

/-- The face bound invariant is established by every per-file step and
preserved across the rest of the run. -/
theorem scan_files_face_bounds (fid nr : Nat)
    (files : List (String × FileEnv)) :
    ∀ (rest : List (String × FileEnv)) (db : DB),
      (∀ e ∈ rest, e ∈ files) →
      (∀ img ∈ db.images, img.id < db.nextImageId) →
      (∀ f ∈ db.faces, face_in_bounds files db f) →
      ∀ f ∈ (scan_files db fid nr rest).faces,
        face_in_bounds files (scan_files db fid nr rest) f := by
  intro rest
  induction rest with
  | nil => exact fun db _ _ hinv f hf => hinv f hf
  | cons qe t ih =>
      obtain ⟨q, env⟩ := qe
      intro db hsub hwf hinv f hf
      simp only [scan_files] at hf ⊢
      refine ih _ (fun e he => hsub e (List.mem_cons_of_mem _ he))
        (process_file_wf db fid nr q env hwf) ?_ f hf
      intro g hg
      rcases process_file_faces_cases db fid nr q env hwf g hg with
        h | ⟨⟨d, hd, hi, hx1, hy1, hx2, hy2⟩, img, himem, hid, hpath, hw, hh⟩
      · exact face_in_bounds_mono files db _ g
          (process_file_images_monotone db fid nr q env hwf) (hinv g h)
      · obtain ⟨hb1, hb2, hb3, hb4, hb5, hb6⟩ := detect_faces_bounds env d hd
        refine ⟨img, himem, by rw [hid, hi], env, ?_, ?_, ?_, ?_, ?_, ?_, ?_,
          ?_⟩
        · rw [hpath]
          exact hsub (q, env) (List.mem_cons_self _ _)
        · rw [hx1]; exact hb1
        · rw [hx1, hx2]; exact hb2
        · rw [hx2]; exact hb3
        · rw [hy1]; exact hb4
        · rw [hy1, hy2]; exact hb5
        · rw [hy2]; exact hb6
        · intro hpil
          rw [hw, hh, hpil]
          refine ⟨rfl, rfl, ?_, ?_⟩
          · rw [hx2]
            simpa using hb3
          · rw [hy2]
            simpa using hb6

/-- C6 counterexample: the claim says every stored face satisfies
`0 ≤ x1 < x2 ≤ orig_width` and `0 ≤ y1 < y2 ≤ orig_height` of its owning
image.  The clamp in `detect_faces` uses the DECODED dimensions, while
`orig_width`/`orig_height` come from the separate PIL probe in `add_image`,
which stores `(0, 0)` when it fails.  Scanning a file the PIL probe cannot
read but cv2 decodes at 100×100 with one detection stores a face with
`x2 = 50` on an image whose `orig_width` is 0 — the claimed bound
`x2 ≤ orig_width` fails. -/
theorem face_bbox_exceeds_orig_cx :
    ((scan_run dbC6 1 filesC6).faces.find? (fun f => f.id == 1)).map
        (fun f => (f.imageId, f.x2)) = some (1, (50 : ℚ)) ∧
    ((scan_run dbC6 1 filesC6).images.find? (fun i => i.id == 1)).map
        (fun i => (i.filePath, i.origW)) = some ("/pics/p.jpg", 0) ∧
    ¬ ((50 : ℚ) ≤ ((0 : Nat) : ℚ)) := by
  refine ⟨rfl, rfl, ?_⟩
  norm_num

/-- C6 amended: for every face created by a scan over an initially face-free
database, `0 ≤ x1 < x2 ≤ W` and `0 ≤ y1 < y2 ≤ H` hold for the DECODED
pixel dimensions `(W, H)` of the owning image's file (violating detections
are clamped or discarded before storage); and whenever the registration-time
PIL size probe succeeded, `(W, H)` are exactly the image's stored
`orig_width`/`orig_height`, so the claimed bounds against the original pixel
space hold as well.  When the probe fails the image records 0×0 and the
bounds against `orig_width`/`orig_height` can be violated. -/
theorem scan_faces_within_decoded_bounds (db : DB) (fid : Nat)
    (files : List (String × FileEnv))
    (hempty : db.faces = [])
    (hwf : ∀ img ∈ db.images, img.id < db.nextImageId) :
    ∀ f ∈ (scan_run db fid files).faces,
      face_in_bounds files (scan_run db fid files) f := by
  unfold scan_run
  cases hnr : get_person_by_name db "not recognized"
  · refine scan_files_face_bounds fid _ files files _ (fun e he => he) hwf ?_
    intro f hf
    have hf2 : f ∈ db.faces := hf
    rw [hempty] at hf2
    cases hf2
  · refine scan_files_face_bounds fid _ files files db (fun e he => he) hwf
      ?_
    intro f hf
    rw [hempty] at hf
    cases hf

/-- Witness for `scan_faces_within_decoded_bounds`: the single-file scan of
`filesC6` on the empty database. -/
theorem scan_faces_within_decoded_bounds_witness :
    dbC6.faces = [] ∧
    ∀ f ∈ (scan_run dbC6 1 filesC6).faces,
      face_in_bounds filesC6 (scan_run dbC6 1 filesC6) f :=
  ⟨rfl, scan_faces_within_decoded_bounds dbC6 1 filesC6 rfl (by decide)⟩

/- ## C8: the solo/group export partition -/

/-- A path is among a person's photos (`get_person_photos`) iff the person
owns a face on an image with that path. -/
theorem mem_person_photos_iff (db : DB) (pid : Nat) (path : String) :
    path ∈ (get_person_photos db pid).map (fun r => r.1) ↔
      ∃ f, f ∈ db.faces ∧ ∃ i, i ∈ db.images ∧ f.personId = pid ∧
        f.imageId = i.id ∧ i.filePath = path := by
  constructor
  · intro h
    obtain ⟨r, hr, hpath⟩ := List.mem_map.mp h
    obtain ⟨fi, hfi, hre⟩ := List.mem_map.mp (List.mem_dedup.mp hr)
    obtain ⟨hjoin, hpid⟩ := List.mem_filter.mp hfi
    obtain ⟨f, hf, hmap⟩ := List.mem_flatMap.mp hjoin
    obtain ⟨i, hii, hpair⟩ := List.mem_map.mp hmap
    obtain ⟨hi, him⟩ := List.mem_filter.mp hii
    subst hpair
    rw [← hre] at hpath
    exact ⟨f, hf, i, hi, by simpa using hpid, by simpa using him, hpath⟩
  · rintro ⟨f, hf, i, hi, hpid, him, hpath⟩
    apply List.mem_map.mpr
    refine ⟨(i.filePath, i.fileName, count_faces_on_path db i.filePath,
      f.conf), ?_, hpath⟩
    apply List.mem_dedup.mpr
    apply List.mem_map.mpr
    refine ⟨(f, i), ?_, rfl⟩
    apply List.mem_filter.mpr
    refine ⟨?_, by simpa using hpid⟩
    apply List.mem_flatMap.mpr
    refine ⟨f, hf, ?_⟩
    apply List.mem_map.mpr
    exact ⟨i, List.mem_filter.mpr ⟨hi, by simpa using him⟩, rfl⟩

/-- A path is among a person's solo photos iff the person owns a face on an
image with that path carrying exactly one face in total. -/
theorem mem_single_photos_iff (db : DB) (pid : Nat) (path : String) :
    path ∈ (get_single_photos db pid).map (fun r => r.1) ↔
      ∃ f, f ∈ db.faces ∧ ∃ i, i ∈ db.images ∧ f.personId = pid ∧
        f.imageId = i.id ∧ i.filePath = path ∧
        count_faces_on_image db i.id = 1 := by
  constructor
  · intro h
    obtain ⟨r, hr, hpath⟩ := List.mem_map.mp h
    obtain ⟨fi, hfi, hre⟩ := List.mem_map.mp (List.mem_dedup.mp hr)
    obtain ⟨hjoin, hcond⟩ := List.mem_filter.mp hfi
    obtain ⟨f, hf, hmap⟩ := List.mem_flatMap.mp hjoin
    obtain ⟨i, hii, hpair⟩ := List.mem_map.mp hmap
    obtain ⟨hi, him⟩ := List.mem_filter.mp hii
    subst hpair
    rw [← hre] at hpath
    rw [Bool.and_eq_true] at hcond
    exact ⟨f, hf, i, hi, by simpa using hcond.1, by simpa using him, hpath,
      by simpa using hcond.2⟩
  · rintro ⟨f, hf, i, hi, hpid, him, hpath, hc⟩
    apply List.mem_map.mpr
    refine ⟨(i.filePath, i.fileName, f.conf), ?_, hpath⟩
    apply List.mem_dedup.mpr
    apply List.mem_map.mpr
    refine ⟨(f, i), ?_, rfl⟩
    apply List.mem_filter.mpr
    refine ⟨?_, by rw [Bool.and_eq_true]; exact ⟨by simpa using hpid,
      by simpa using hc⟩⟩
    apply List.mem_flatMap.mpr
    refine ⟨f, hf, ?_⟩
    apply List.mem_map.mpr
    exact ⟨i, List.mem_filter.mpr ⟨hi, by simpa using him⟩, rfl⟩

/-- A path is among a person's group photos iff the person owns a face on an
image with that path carrying more than one face in total. -/
theorem mem_group_photos_iff (db : DB) (pid : Nat) (path : String) :
    path ∈ (get_photos_with_multiple_faces db pid).map (fun r => r.1) ↔
      ∃ f, f ∈ db.faces ∧ ∃ i, i ∈ db.images ∧ f.personId = pid ∧
        f.imageId = i.id ∧ i.filePath = path ∧
        1 < count_faces_on_image db i.id := by
  constructor
  · intro h
    obtain ⟨r, hr, hpath⟩ := List.mem_map.mp h
    obtain ⟨fi, hfi, hre⟩ := List.mem_map.mp (List.mem_dedup.mp hr)
    obtain ⟨hjoin, hcond⟩ := List.mem_filter.mp hfi
    obtain ⟨f, hf, hmap⟩ := List.mem_flatMap.mp hjoin
    obtain ⟨i, hii, hpair⟩ := List.mem_map.mp hmap
    obtain ⟨hi, him⟩ := List.mem_filter.mp hii
    subst hpair
    rw [← hre] at hpath
    rw [Bool.and_eq_true] at hcond
    exact ⟨f, hf, i, hi, by simpa using hcond.1, by simpa using him, hpath,
      by simpa using hcond.2⟩
  · rintro ⟨f, hf, i, hi, hpid, him, hpath, hc⟩
    apply List.mem_map.mpr
    refine ⟨(i.filePath, i.fileName, other_persons_concat db i.id), ?_,
      hpath⟩
    apply List.mem_dedup.mpr
    apply List.mem_map.mpr
    refine ⟨(f, i), ?_, rfl⟩
    apply List.mem_filter.mpr
    refine ⟨?_, by rw [Bool.and_eq_true]; exact ⟨by simpa using hpid,
      by simpa using hc⟩⟩
    apply List.mem_flatMap.mpr
    refine ⟨f, hf, ?_⟩
    apply List.mem_map.mpr
    exact ⟨i, List.mem_filter.mpr ⟨hi, by simpa using him⟩, rfl⟩

/-- An image carrying a face carries at least one face. -/
theorem count_faces_pos (db : DB) (f : FaceRow) (i : ImageRow)
    (hf : f ∈ db.faces) (him : f.imageId = i.id) :
    1 ≤ count_faces_on_image db i.id := by
  unfold count_faces_on_image
  have hmem : f ∈ db.faces.filter (fun g => g.imageId == i.id) :=
    List.mem_filter.mpr ⟨hf, by simpa using him⟩
  exact List.length_pos.mpr (List.ne_nil_of_mem hmem)

/-- C8: for every person the export partition is complete and disjoint:
the solo and group queries together cover exactly the person's photos, no
path is in both, and membership is decided by the total number of faces on
the image across all owners (exactly one means solo, more than one means
group).  The only structural hypothesis is the schema's UNIQUE constraint on
`images.file_path`. -/
theorem export_partition (db : DB) (pid : Nat) (path : String)
    (hpaths : (db.images.map ImageRow.filePath).Nodup) :
    ((path ∈ (get_single_photos db pid).map (fun r => r.1) ∨
      path ∈ (get_photos_with_multiple_faces db pid).map (fun r => r.1)) ↔
      path ∈ (get_person_photos db pid).map (fun r => r.1)) ∧
    ¬(path ∈ (get_single_photos db pid).map (fun r => r.1) ∧
      path ∈ (get_photos_with_multiple_faces db pid).map (fun r => r.1)) ∧
    (∀ img ∈ db.images, img.filePath = path →
      (path ∈ (get_single_photos db pid).map (fun r => r.1) ↔
        (path ∈ (get_person_photos db pid).map (fun r => r.1) ∧
         count_faces_on_image db img.id = 1)) ∧
      (path ∈ (get_photos_with_multiple_faces db pid).map (fun r => r.1) ↔
        (path ∈ (get_person_photos db pid).map (fun r => r.1) ∧
         1 < count_faces_on_image db img.id))) := by
  have hinj : ∀ i1 ∈ db.images, ∀ i2 ∈ db.images,
      i1.filePath = i2.filePath → i1 = i2 := by
    intro i1 h1 i2 h2 hp
    exact List.inj_on_of_nodup_map hpaths h1 h2 hp
  refine ⟨⟨?_, ?_⟩, ?_, ?_⟩
  · rintro (h | h)
    · obtain ⟨f, hf, i, hi, h1, h2, h3, _⟩ := (mem_single_photos_iff db pid path).mp h
      exact (mem_person_photos_iff db pid path).mpr ⟨f, hf, i, hi, h1, h2, h3⟩
    · obtain ⟨f, hf, i, hi, h1, h2, h3, _⟩ := (mem_group_photos_iff db pid path).mp h
      exact (mem_person_photos_iff db pid path).mpr ⟨f, hf, i, hi, h1, h2, h3⟩
  · intro h
    obtain ⟨f, hf, i, hi, h1, h2, h3⟩ := (mem_person_photos_iff db pid path).mp h
    rcases Nat.eq_or_lt_of_le (count_faces_pos db f i hf h2) with heq | hlt
    · exact Or.inl ((mem_single_photos_iff db pid path).mpr
        ⟨f, hf, i, hi, h1, h2, h3, heq.symm⟩)
    · exact Or.inr ((mem_group_photos_iff db pid path).mpr
        ⟨f, hf, i, hi, h1, h2, h3, hlt⟩)
  · rintro ⟨hs, hg⟩
    obtain ⟨f1, hf1, i1, hi1, _, _, hp1, hc1⟩ :=
      (mem_single_photos_iff db pid path).mp hs
    obtain ⟨f2, hf2, i2, hi2, _, _, hp2, hc2⟩ :=
      (mem_group_photos_iff db pid path).mp hg
    have hieq : i1 = i2 := hinj i1 hi1 i2 hi2 (hp1.trans hp2.symm)
    rw [hieq] at hc1
    omega
  · intro img himg hpath2
    constructor
    · constructor
      · intro hs
        obtain ⟨f, hf, i, hi, h1, h2, h3, hc⟩ :=
          (mem_single_photos_iff db pid path).mp hs
        have hieq : i = img := hinj i hi img himg (h3.trans hpath2.symm)
        refine ⟨(mem_person_photos_iff db pid path).mpr
          ⟨f, hf, i, hi, h1, h2, h3⟩, ?_⟩
        rw [← hieq]
        exact hc
      · rintro ⟨hall, hc⟩
        obtain ⟨f, hf, i, hi, h1, h2, h3⟩ :=
          (mem_person_photos_iff db pid path).mp hall
        have hieq : i = img := hinj i hi img himg (h3.trans hpath2.symm)
        exact (mem_single_photos_iff db pid path).mpr
          ⟨f, hf, i, hi, h1, h2, h3, by rw [hieq]; exact hc⟩
    · constructor
      · intro hs
        obtain ⟨f, hf, i, hi, h1, h2, h3, hc⟩ :=
          (mem_group_photos_iff db pid path).mp hs
        have hieq : i = img := hinj i hi img himg (h3.trans hpath2.symm)
        refine ⟨(mem_person_photos_iff db pid path).mpr
          ⟨f, hf, i, hi, h1, h2, h3⟩, ?_⟩
        rw [← hieq]
        exact hc
      · rintro ⟨hall, hc⟩
        obtain ⟨f, hf, i, hi, h1, h2, h3⟩ :=
          (mem_person_photos_iff db pid path).mp hall
        have hieq : i = img := hinj i hi img himg (h3.trans hpath2.symm)
        exact (mem_group_photos_iff db pid path).mpr
          ⟨f, hf, i, hi, h1, h2, h3, by rw [hieq]; exact hc⟩

/-- Witness for `export_partition`: Alice's photos in `dbC8` (one solo, one
shared with Bob), at the solo photo's path. -/
theorem export_partition_witness :
    (dbC8.images.map ImageRow.filePath).Nodup ∧
    (((("/pics/a.jpg" ∈ (get_single_photos dbC8 1).map (fun r => r.1) ∨
      "/pics/a.jpg" ∈
        (get_photos_with_multiple_faces dbC8 1).map (fun r => r.1)) ↔
      "/pics/a.jpg" ∈ (get_person_photos dbC8 1).map (fun r => r.1)) ∧
    ¬("/pics/a.jpg" ∈ (get_single_photos dbC8 1).map (fun r => r.1) ∧
      "/pics/a.jpg" ∈
        (get_photos_with_multiple_faces dbC8 1).map (fun r => r.1)) ∧
    (∀ img ∈ dbC8.images, img.filePath = "/pics/a.jpg" →
      ("/pics/a.jpg" ∈ (get_single_photos dbC8 1).map (fun r => r.1) ↔
        ("/pics/a.jpg" ∈ (get_person_photos dbC8 1).map (fun r => r.1) ∧
         count_faces_on_image dbC8 img.id = 1)) ∧
      ("/pics/a.jpg" ∈
          (get_photos_with_multiple_faces dbC8 1).map (fun r => r.1) ↔
        ("/pics/a.jpg" ∈ (get_person_photos dbC8 1).map (fun r => r.1) ∧
         1 < count_faces_on_image dbC8 img.id))))) :=
  ⟨by decide, export_partition dbC8 1 "/pics/a.jpg" (by decide)⟩

end PhotoFace
